import Mathlib

/-!
Shallow embedding of `src/esp/esp_engine_reader/src/main.cpp`, a SensESP
firmware sketch for a Heltec V3 board.  The sketch wires three analog and
two digital GPIO sensors to Signal K outputs, caches the last value of each
sensor in a module-scope global, and periodically redraws an SSD1306 OLED
display from those cached values.

Modelling conventions:
- C++ `float` globals are modelled as exact rationals (`ℚ`); the sketch only
  stores and formats them, so no floating-point rounding behaviour is load
  bearing for the claims proved here.
- `millis()` values and the `unsigned long lastDisplayUpdate` are modelled as
  `Nat`, with the unsigned 32-bit wraparound of `millis() - lastDisplayUpdate`
  made explicit in `sub32`.
- Calls into the vendor display driver are modelled as an emitted list of
  `DisplayCmd` values; serial output is modelled as a list of `String` lines.
- The SensESP library itself (sensor polling, observer/consumer dispatch) is
  not part of the repository; where a claim depends on it, the corresponding
  definition is modelled from the specification and marked as such.
-/

namespace EngineReader

/-- GPIO number of analog input 1 (`kAnalogInput1Gpio`, main.cpp line 35). -/
def kAnalogInput1Gpio : Nat := 7

/-- GPIO number of analog input 2 (`kAnalogInput2Gpio`, main.cpp line 36). -/
def kAnalogInput2Gpio : Nat := 6

/-- GPIO number of analog input 3 (`kAnalogInput3Gpio`, main.cpp line 37). -/
def kAnalogInput3Gpio : Nat := 5

/-- Analog sampling interval in milliseconds (main.cpp line 40). -/
def kAnalogInputReadInterval : Nat := 500

/-- Output value at maximum input voltage (main.cpp line 44). -/
def kAnalogInputScale : ℚ := 33 / 10

/-- GPIO number of digital input 1 (`kDigitalInput1Gpio`, main.cpp line 47). -/
def kDigitalInput1Gpio : Nat := 4

/-- GPIO number of digital input 2 (`kDigitalInput2Gpio`, main.cpp line 48). -/
def kDigitalInput2Gpio : Nat := 3

/-- The 7-bit I2C address the display object is constructed with
(main.cpp line 77: `SSD1306Wire display(0x3c, ...)`). -/
def displayAddress : Nat := 0x3c

/-- Heltec V3 external-power control pin (`Vext`, a board constant). -/
def VextPin : Nat := 36

/-- The module-scope cached sensor values (main.cpp lines 27-31). -/
structure CacheState where
  current_analog_value1 : ℚ
  current_analog_value2 : ℚ
  current_analog_value3 : ℚ
  current_digital_input1 : Bool
  current_digital_input2 : Bool
  deriving DecidableEq

/-- Names of the five cached globals, used to log writes. -/
inductive CacheField
  | a1
  | a2
  | a3
  | d1
  | d2
  deriving DecidableEq

/-- Observer attached to `analog_input1` (main.cpp lines 111-114): stores
`analog_input1->get()` into `current_analog_value1`. -/
def analogObserver1 (s : CacheState) (v : ℚ) : CacheState :=
  { s with current_analog_value1 := v }

/-- Observer attached to `analog_input2` (main.cpp lines 116-119). -/
def analogObserver2 (s : CacheState) (v : ℚ) : CacheState :=
  { s with current_analog_value2 := v }

/-- Observer attached to `analog_input3` (main.cpp lines 121-124). -/
def analogObserver3 (s : CacheState) (v : ℚ) : CacheState :=
  { s with current_analog_value3 := v }

/-- Observer attached to `digital_input1` (main.cpp lines 133-136): stores
`digital_input1->get()` into `current_digital_input1`. -/
def digitalObserver1 (s : CacheState) (v : Bool) : CacheState :=
  { s with current_digital_input1 := v }

/-- Observer attached to `digital_input2` (main.cpp lines 137-140). -/
def digitalObserver2 (s : CacheState) (v : Bool) : CacheState :=
  { s with current_digital_input2 := v }

/-- `LambdaConsumer` connected to `digital_input1` (main.cpp lines 147-152):
stores the emitted value into `current_digital_input1`. -/
def digital1Consumer (s : CacheState) (input : Bool) : CacheState :=
  { s with current_digital_input1 := input }

/-- `LambdaConsumer` connected to `digital_input2` (main.cpp lines 153-158). -/
def digital2Consumer (s : CacheState) (input : Bool) : CacheState :=
  { s with current_digital_input2 := input }

/-- Observer for digital input 1 with an explicit write log: the lambda body
performs exactly one write of the sensor value to `current_digital_input1`. -/
def digitalObserver1W (s : CacheState) (v : Bool) : CacheState × List (CacheField × Bool) :=
  (digitalObserver1 s v, [(CacheField.d1, v)])

/-- Observer for digital input 2 with an explicit write log. -/
def digitalObserver2W (s : CacheState) (v : Bool) : CacheState × List (CacheField × Bool) :=
  (digitalObserver2 s v, [(CacheField.d2, v)])

/-- Consumer for digital input 1 with an explicit write log. -/
def digital1ConsumerW (s : CacheState) (input : Bool) : CacheState × List (CacheField × Bool) :=
  (digital1Consumer s input, [(CacheField.d1, input)])

/-- Consumer for digital input 2 with an explicit write log. -/
def digital2ConsumerW (s : CacheState) (input : Bool) : CacheState × List (CacheField × Bool) :=
  (digital2Consumer s input, [(CacheField.d2, input)])

/-- Modelled from the spec: SensESP notification dispatch for a value change
of `digital_input1`.  The library code (Observable notify plus connected
consumer delivery) is not in the repository; per the spec, on a change the
sensor stores the new value, notifies attached observers (which re-read the
cache via the accessor `get()`, returning the just-stored value), then
delivers the emitted value to connected consumers.  Returns the final cache
state and the log of writes performed to the cached globals. -/
def digital1Notify (s : CacheState) (v : Bool) : CacheState × List (CacheField × Bool) :=
  let o := digitalObserver1W s v
  let c := digital1ConsumerW o.1 v
  (c.1, o.2 ++ c.2)

/-- Modelled from the spec: notification dispatch for `digital_input2`. -/
def digital2Notify (s : CacheState) (v : Bool) : CacheState × List (CacheField × Bool) :=
  let o := digitalObserver2W s v
  let c := digital2ConsumerW o.1 v
  (c.1, o.2 ++ c.2)

/-- Modelled from the spec: one step of the SensESP change-detecting poller
(AnalogInput / DigitalInputChange).  The poller code is library code, not in
the repository.  Per spec section 4.1: compare the new reading to the
previously cached value and, only if different (or if there is no prior
value), update the cache and notify observers.  Returns the new cached value
and whether observers were notified. -/
def pollerStep {α : Type} [DecidableEq α] (prev : Option α) (r : α) : Option α × Bool :=
  if prev = some r then (prev, false) else (some r, true)

/-- Feed a whole sequence of raw readings to the poller, collecting for each
reading whether a notification was issued. -/
def pollerTrace {α : Type} [DecidableEq α] : Option α → List α → List Bool
  | _, [] => []
  | prev, r :: rest => (pollerStep prev r).2 :: pollerTrace (pollerStep prev r).1 rest

/-- Spec-side description of when notifications should occur for the
readings after the first: one `true` per position whose value differs from
its predecessor. -/
def changeFlags {α : Type} [DecidableEq α] : List α → List Bool
  | [] => []
  | [_] => []
  | a :: b :: rest => decide (a ≠ b) :: changeFlags (b :: rest)

/-- Fonts selected via `display.setFont` in the sketch. -/
inductive Font
  | plain10
  | plain16
  deriving DecidableEq

/-- Text alignments selected via `display.setTextAlignment` in the sketch. -/
inductive TextAlign
  | left
  | center
  | right
  deriving DecidableEq

/-- A call into the SSD1306 display driver, in program order.  `flush`
models `display.display()`, which pushes the frame buffer to the device. -/
inductive DisplayCmd
  | clear
  | setFont (f : Font)
  | setTextAlignment (a : TextAlign)
  | drawString (x y : Nat) (s : String)
  | flush
  deriving DecidableEq

/-- Arduino `String(float value, 2)`: fixed-point rendering with exactly two
decimal places, rounding to the nearest hundredth (half up).  The rounded
value in hundredths is `⌊q * 100 + 1 / 2⌋`, written out in integer
arithmetic on the numerator and denominator so that it evaluates by kernel
reduction.  The cached voltages are nonnegative, which is the only case the
sketch exercises. -/
def formatFloat2 (q : ℚ) : String :=
  let n : Int := (200 * q.num + q.den) / (2 * q.den)
  let ip : Int := n / 100
  let fp : Nat := (n % 100).natAbs
  toString ip ++ "." ++ (if fp < 10 then "0" else "") ++ toString fp

/-- The draw calls of one display update in `loop()` (main.cpp lines
265-288), as a function of the cached sensor values and the current
`millis()` reading. -/
def renderFrame (c : CacheState) (millis : Nat) : List DisplayCmd :=
  [ DisplayCmd.clear,
    DisplayCmd.setFont Font.plain10,
    DisplayCmd.setTextAlignment TextAlign.left,
    DisplayCmd.drawString 0 0 "SensESP Engine Reader",
    DisplayCmd.drawString 0 10
      ("A" ++ toString kAnalogInput1Gpio ++ ": " ++ formatFloat2 c.current_analog_value1 ++ "V"),
    DisplayCmd.drawString 0 20
      ("A" ++ toString kAnalogInput2Gpio ++ ": " ++ formatFloat2 c.current_analog_value2 ++ "V"),
    DisplayCmd.drawString 0 30
      ("A" ++ toString kAnalogInput3Gpio ++ ": " ++ formatFloat2 c.current_analog_value3 ++ "V"),
    DisplayCmd.drawString 0 40
      ("D" ++ toString kDigitalInput1Gpio ++ ": "
        ++ (if c.current_digital_input1 then "HIGH" else "LOW")),
    DisplayCmd.drawString 0 50
      ("D" ++ toString kDigitalInput2Gpio ++ ": "
        ++ (if c.current_digital_input2 then "HIGH" else "LOW")),
    DisplayCmd.setTextAlignment TextAlign.right,
    DisplayCmd.drawString 128 54 (toString (millis / 1000) ++ "s"),
    DisplayCmd.flush ]

/-- The state carried across iterations of `loop()`: the global
`display_working` flag, the `static unsigned long lastDisplayUpdate`
(initially 0), and the cached sensor values. -/
structure LoopState where
  display_working : Bool
  lastDisplayUpdate : Nat
  cache : CacheState
  deriving DecidableEq

/-- Unsigned 32-bit subtraction `a - b`, as computed by
`millis() - lastDisplayUpdate` on `unsigned long` operands (both below
`2 ^ 32`). -/
def sub32 (a b : Nat) : Nat := (a + 2 ^ 32 - b) % 2 ^ 32

/-- One iteration of the display portion of `loop()` (main.cpp lines
255-300) at a given `millis()` reading: redraw the display when
`display_working` is set and more than 1000 ms have elapsed since the last
redraw, otherwise emit no display call.  Returns the successor state and
the list of display-driver calls issued. -/
def loopStep (s : LoopState) (millis : Nat) : LoopState × List DisplayCmd :=
  if s.display_working = true ∧ 1000 < sub32 millis s.lastDisplayUpdate then
    ({ s with lastDisplayUpdate := millis }, renderFrame s.cache millis)
  else
    (s, [])

/-- One full iteration of `loop()`: `event_loop()->tick()` may run poller
callbacks, which only rewrite cached sensor values (never
`display_working`), so its effect is an arbitrary replacement cache; then
the display portion runs. -/
def loopStepFull (s : LoopState) (e : CacheState × Nat) : LoopState × List DisplayCmd :=
  loopStep { s with cache := e.1 } e.2

/-- Iterate `loop()` over a whole schedule of (post-tick cache, millis)
pairs, returning the final state. -/
def loopIterFull (s : LoopState) : List (CacheState × Nat) → LoopState
  | [] => s
  | e :: tr => loopIterFull (loopStepFull s e).1 tr

/-- The loop state at the end of `setup()`: `display_working` holds the
result of the single `display.init()` call (main.cpp line 229), and
`lastDisplayUpdate` starts at 0. -/
def setupLoopState (initOk : Bool) (c : CacheState) : LoopState :=
  { display_working := initOk, lastDisplayUpdate := 0, cache := c }

/-- The 7-bit addresses probed by `scanI2C` (main.cpp line 59:
`for (byte address = 1; address < 127; address++)`). -/
def scanAddresses : List Nat := List.range' 1 126

/-- One uppercase hexadecimal digit, as produced by `printf` format `%X`. -/
def hexDigit (n : Nat) : Char :=
  if n < 10 then Char.ofNat (48 + n) else Char.ofNat (55 + n)

/-- Two-digit zero-padded uppercase hexadecimal, `printf` format `%02X`,
for values below 256. -/
def hex2 (n : Nat) : String :=
  String.mk [hexDigit (n / 16 % 16), hexDigit (n % 16)]

/-- The serial line printed for a responding device (main.cpp line 64). -/
def foundLine (address : Nat) : String :=
  "I2C device found at address 0x" ++ hex2 address

/-- The summary line printed after the scan (main.cpp lines 69-73). -/
def scanSummary (deviceCount : Nat) : String :=
  if deviceCount = 0 then "No I2C devices found!"
  else "Found " ++ toString deviceCount ++ " I2C device(s)"

/-- The body of the `scanI2C` for-loop, accumulating the per-device serial
lines and the `deviceCount`.  `ack address` tells whether the bus
transaction at `address` returned error 0. -/
def scanI2CLines (ack : Nat → Bool) : List String × Nat :=
  scanAddresses.foldl
    (fun acc address =>
      if ack address then (acc.1 ++ [foundLine address], acc.2 + 1) else acc)
    ([], 0)

/-- All serial output of `scanI2C` (main.cpp lines 55-74). -/
def scanI2C (ack : Nat → Bool) : List String :=
  let r := scanI2CLines ack
  "Scanning I2C bus..." :: r.1 ++ [scanSummary r.2]

/-- Arduino pin-configuration modes used by the sketch. -/
inductive PinModeKind
  | input
  | input_pullup
  | input_pulldown
  | output
  deriving DecidableEq

/-- The `pinMode` configurations applied during `setup()`, in program
order.  The INPUT entries for the analog pins come from main.cpp lines 97,
101, 105; the INPUT_PULLUP entries are the pin modes the
`DigitalInputChange` constructors are invoked with (main.cpp lines 127-130;
the constructor applying its pin-mode argument is SensESP library
behaviour, modelled from the spec); the INPUT_PULLDOWN entries come from
main.cpp lines 143-144; the OUTPUT entry for `Vext` from line 226. -/
def setupPinEvents : List (Nat × PinModeKind) :=
  [ (kAnalogInput1Gpio, PinModeKind.input),
    (kAnalogInput2Gpio, PinModeKind.input),
    (kAnalogInput3Gpio, PinModeKind.input),
    (kDigitalInput1Gpio, PinModeKind.input_pullup),
    (kDigitalInput2Gpio, PinModeKind.input_pullup),
    (kDigitalInput1Gpio, PinModeKind.input_pulldown),
    (kDigitalInput2Gpio, PinModeKind.input_pulldown),
    (VextPin, PinModeKind.output) ]

/-- The pin mode left in effect for `pin` when `setup()` finishes: the last
configuration applied wins. -/
def finalPinMode (pin : Nat) : Option PinModeKind :=
  ((setupPinEvents.filter (fun e => e.1 == pin)).map (fun e => e.2)).getLast?

/-- The display test screen drawn unconditionally in `setup()` (main.cpp
lines 236-245). -/
def testScreenCmds : List DisplayCmd :=
  [ DisplayCmd.clear,
    DisplayCmd.setFont Font.plain10,
    DisplayCmd.setTextAlignment TextAlign.left,
    DisplayCmd.drawString 0 0 "Heltec V3",
    DisplayCmd.drawString 0 12 "Display Test",
    DisplayCmd.drawString 0 24 "Init: OK",
    DisplayCmd.setFont Font.plain16,
    DisplayCmd.setTextAlignment TextAlign.center,
    DisplayCmd.drawString 64 45 "WORKING!",
    DisplayCmd.flush ]

/-- A display-related event during `setup()`: the one `display.init()`
call at the constructed address with its outcome, an I2C bus probe issued
by `scanI2C`, or a draw call of the test screen. -/
inductive SetupEvent
  | initDisplay (addr : Nat) (ok : Bool)
  | i2cScanProbe (addr : Nat)
  | draw (c : DisplayCmd)
  deriving DecidableEq

/-- The display-related events of one run of `setup()` (main.cpp lines
229-246), as a function of the `display.init()` outcome: the single init
attempt at `displayAddress`, then the unconditional `scanI2C` probe of
addresses 1-126, then the unconditional test screen. -/
def setupDisplayTrace (initOk : Bool) : List SetupEvent :=
  SetupEvent.initDisplay displayAddress initOk
    :: (scanAddresses.map SetupEvent.i2cScanProbe
        ++ testScreenCmds.map SetupEvent.draw)

/-- The addresses at which a display initialization was attempted during a
run of `setup()`. -/
def initAttempts (tr : List SetupEvent) : List Nat :=
  tr.filterMap (fun e =>
    match e with
    | SetupEvent.initDisplay a _ => some a
    | _ => none)

/-- Whether a display call is a `drawString`. -/
def isDrawString : DisplayCmd → Bool
  | DisplayCmd.drawString _ _ _ => true
  | _ => false

/-- Number of `drawString` calls in a list of display calls. -/
def drawStringCount (l : List DisplayCmd) : Nat :=
  (l.filter isDrawString).length

/-- The cached state of the worked example in the spec: analog input 1 at
1.23 V, digital input 1 HIGH, digital input 2 LOW. -/
def exampleCache : CacheState :=
  { current_analog_value1 := mkRat 123 100,
    current_analog_value2 := 0,
    current_analog_value3 := 0,
    current_digital_input1 := true,
    current_digital_input2 := false }

set_option maxRecDepth 100000

/-- Helper: once a value is cached, the poller notifies exactly at the
readings that differ from their predecessor. -/
theorem pollerTrace_some {α : Type} [DecidableEq α] (xs : List α) :
    ∀ a : α, pollerTrace (some a) xs = changeFlags (a :: xs) := by
  induction xs with
  | nil => intro a; rfl
  | cons b rest ih =>
    intro a
    by_cases h : a = b
    · subst h
      simp [pollerTrace, pollerStep, changeFlags, ih]
    · simp [pollerTrace, pollerStep, changeFlags, h, ih]

/-- Helper: feeding a nonempty sequence from the initial (empty) cache
notifies on the first reading and then exactly on changes. -/
theorem pollerTrace_none {α : Type} [DecidableEq α] (x : α) (xs : List α) :
    pollerTrace none (x :: xs) = true :: changeFlags (x :: xs) := by
  simp [pollerTrace, pollerStep, pollerTrace_some]

/-- C1: for every sequence of raw readings fed to a poller (analog readings
modelled as rationals, digital as booleans), the observer-notification trace
is `true` for the very first reading after initialization and thereafter
`true` exactly at readings that differ from their predecessor — so exactly
one notification per distinct value change and none for a repeated
identical value. -/
theorem c1_poller_notifies_once_per_change :
    (∀ (x : ℚ) (xs : List ℚ),
        pollerTrace none (x :: xs) = true :: changeFlags (x :: xs))
    ∧ (∀ (x : Bool) (xs : List Bool),
        pollerTrace none (x :: xs) = true :: changeFlags (x :: xs)) :=
  ⟨fun x xs => pollerTrace_none x xs, fun x xs => pollerTrace_none x xs⟩

/-- C6: each observer callback (and each connected LambdaConsumer) writes
only its own channel's cached global: every other cached value is left
exactly as it was. -/
theorem c6_observers_do_not_interfere :
    ∀ (s : CacheState) (q : ℚ) (b : Bool),
      ((analogObserver1 s q).current_analog_value2 = s.current_analog_value2
        ∧ (analogObserver1 s q).current_analog_value3 = s.current_analog_value3
        ∧ (analogObserver1 s q).current_digital_input1 = s.current_digital_input1
        ∧ (analogObserver1 s q).current_digital_input2 = s.current_digital_input2)
      ∧ ((analogObserver2 s q).current_analog_value1 = s.current_analog_value1
        ∧ (analogObserver2 s q).current_analog_value3 = s.current_analog_value3
        ∧ (analogObserver2 s q).current_digital_input1 = s.current_digital_input1
        ∧ (analogObserver2 s q).current_digital_input2 = s.current_digital_input2)
      ∧ ((analogObserver3 s q).current_analog_value1 = s.current_analog_value1
        ∧ (analogObserver3 s q).current_analog_value2 = s.current_analog_value2
        ∧ (analogObserver3 s q).current_digital_input1 = s.current_digital_input1
        ∧ (analogObserver3 s q).current_digital_input2 = s.current_digital_input2)
      ∧ ((digitalObserver1 s b).current_analog_value1 = s.current_analog_value1
        ∧ (digitalObserver1 s b).current_analog_value2 = s.current_analog_value2
        ∧ (digitalObserver1 s b).current_analog_value3 = s.current_analog_value3
        ∧ (digitalObserver1 s b).current_digital_input2 = s.current_digital_input2)
      ∧ ((digitalObserver2 s b).current_analog_value1 = s.current_analog_value1
        ∧ (digitalObserver2 s b).current_analog_value2 = s.current_analog_value2
        ∧ (digitalObserver2 s b).current_analog_value3 = s.current_analog_value3
        ∧ (digitalObserver2 s b).current_digital_input1 = s.current_digital_input1)
      ∧ ((digital1Consumer s b).current_analog_value1 = s.current_analog_value1
        ∧ (digital1Consumer s b).current_analog_value2 = s.current_analog_value2
        ∧ (digital1Consumer s b).current_analog_value3 = s.current_analog_value3
        ∧ (digital1Consumer s b).current_digital_input2 = s.current_digital_input2)
      ∧ ((digital2Consumer s b).current_analog_value1 = s.current_analog_value1
        ∧ (digital2Consumer s b).current_analog_value2 = s.current_analog_value2
        ∧ (digital2Consumer s b).current_analog_value3 = s.current_analog_value3
        ∧ (digital2Consumer s b).current_digital_input1 = s.current_digital_input1) :=
  fun _ _ _ =>
    ⟨⟨rfl, rfl, rfl, rfl⟩, ⟨rfl, rfl, rfl, rfl⟩, ⟨rfl, rfl, rfl, rfl⟩,
      ⟨rfl, rfl, rfl, rfl⟩, ⟨rfl, rfl, rfl, rfl⟩, ⟨rfl, rfl, rfl, rfl⟩,
      ⟨rfl, rfl, rfl, rfl⟩⟩

/-- C10: a change notification of a digital input writes the corresponding
cached global exactly twice — once by the attached observer and once by the
connected LambdaConsumer — both writes store the notified value, and
afterwards the cache equals the sensor's current value. -/
theorem c10_digital_notification_double_write :
    ∀ (s : CacheState) (v : Bool),
      (digital1Notify s v).2 = [(CacheField.d1, v), (CacheField.d1, v)]
      ∧ ((digital1Notify s v).1).current_digital_input1 = v
      ∧ (digital2Notify s v).2 = [(CacheField.d2, v), (CacheField.d2, v)]
      ∧ ((digital2Notify s v).1).current_digital_input2 = v :=
  fun _ _ => ⟨rfl, rfl, rfl, rfl⟩

/-- Helper: one full `loop()` iteration never changes `display_working`. -/
theorem loopStepFull_display_working (s : LoopState) (e : CacheState × Nat) :
    ((loopStepFull s e).1).display_working = s.display_working := by
  unfold loopStepFull loopStep
  split <;> rfl

/-- Helper: no number of `loop()` iterations changes `display_working`. -/
theorem loopIterFull_display_working (tr : List (CacheState × Nat)) :
    ∀ s : LoopState, (loopIterFull s tr).display_working = s.display_working := by
  induction tr with
  | nil => intro s; rfl
  | cons e tr ih =>
    intro s
    rw [loopIterFull, ih, loopStepFull_display_working]

/-- C3: `display_working` is set exactly once, at startup, to the
device-probe result (`display.init()`), and every subsequent sequence of
`loop()` iterations leaves it at that value: once Active the renderer never
becomes Unavailable, and once Unavailable it never becomes Active. -/
theorem c3_display_working_constant_after_setup :
    ∀ (initOk : Bool) (c0 : CacheState) (tr : List (CacheState × Nat)),
      (setupLoopState initOk c0).display_working = initOk
      ∧ (loopIterFull (setupLoopState initOk c0) tr).display_working = initOk :=
  fun initOk c0 tr => ⟨rfl, loopIterFull_display_working tr (setupLoopState initOk c0)⟩

/-- Helper: whenever a `loop()` iteration emits any display call, what it
emits is exactly the frame rendered from its cached values at that instant. -/
theorem loopStep_render (s : LoopState) (m : Nat) (h : (loopStep s m).2 ≠ []) :
    (loopStep s m).2 = renderFrame s.cache m := by
  by_cases hc : s.display_working = true ∧ 1000 < sub32 m s.lastDisplayUpdate
  · simp [loopStep, hc]
  · simp [loopStep, hc] at h

/-- C4: while the renderer is Active, an iteration of `loop()` redraws the
display exactly when more than 1000 ms (in 32-bit unsigned arithmetic) have
elapsed since the last redraw; a redraw starts by clearing the frame
buffer, draws the fixed-position text lines of the current cached values
plus the uptime counter (the `renderFrame` list), ends by flushing the
buffer, and records the redraw instant; while Unavailable, `loop()` issues
no display call at all. -/
theorem c4_redraw_cadence_and_gating :
    ∀ (s : LoopState) (m : Nat),
      ((loopStep s m).2 ≠ [] ↔ s.display_working = true ∧ 1000 < sub32 m s.lastDisplayUpdate)
      ∧ (s.display_working = false → (loopStep s m).2 = [])
      ∧ (s.display_working = true → 1000 < sub32 m s.lastDisplayUpdate →
          (loopStep s m).2 = renderFrame s.cache m
          ∧ (loopStep s m).1 = { s with lastDisplayUpdate := m }
          ∧ (renderFrame s.cache m).head? = some DisplayCmd.clear
          ∧ (renderFrame s.cache m).getLast? = some DisplayCmd.flush) := by
  intro s m
  by_cases hc : s.display_working = true ∧ 1000 < sub32 m s.lastDisplayUpdate
  · refine ⟨?_, ?_, ?_⟩
    · simp [loopStep, hc, renderFrame]
    · intro hf
      rw [hf] at hc
      exact absurd hc.1 (by simp)
    · intro _ _
      exact ⟨by simp [loopStep, hc], by simp [loopStep, hc], rfl, rfl⟩
  · refine ⟨?_, ?_, ?_⟩
    · simp [loopStep, hc]
    · intro _
      simp [loopStep, hc]
    · intro h1 h2
      exact absurd ⟨h1, h2⟩ hc

/-- C4 witness: with the display Active, last redraw at 0 and `millis()` at
2000, the loop redraws with exactly the rendered frame; with the display
Unavailable it draws nothing. -/
theorem c4_witness :
    (loopStep (setupLoopState true exampleCache) 2000).2 = renderFrame exampleCache 2000
    ∧ (loopStep (setupLoopState false exampleCache) 2000).2 = [] := by
  refine ⟨?_, ?_⟩
  · exact ((c4_redraw_cadence_and_gating (setupLoopState true exampleCache) 2000).2.2
      rfl (by decide)).1
  · exact (c4_redraw_cadence_and_gating (setupLoopState false exampleCache) 2000).2.1 rfl

/-- C2: a render tick is a pure function of the cached values and the
uptime reading: two loop iterations that redraw from equal cached values at
the same instant emit equal frames regardless of any other state, and on
the spec's example (analog input 1 at 1.23 V, digital input 1 HIGH, digital
input 2 LOW, uptime 42 s) the frame contains exactly the four facts at
their fixed screen positions. -/
theorem c2_render_frame_encodes_cached_values :
    (∀ (s1 s2 : LoopState) (m : Nat),
        s1.cache = s2.cache →
        (loopStep s1 m).2 ≠ [] →
        (loopStep s2 m).2 ≠ [] →
        (loopStep s1 m).2 = (loopStep s2 m).2)
    ∧ (∀ (c : CacheState) (m : Nat),
        c.current_analog_value1 = mkRat 123 100 →
        c.current_digital_input1 = true →
        c.current_digital_input2 = false →
        m / 1000 = 42 →
        DisplayCmd.drawString 0 10 "A7: 1.23V" ∈ renderFrame c m
        ∧ DisplayCmd.drawString 0 40 "D4: HIGH" ∈ renderFrame c m
        ∧ DisplayCmd.drawString 0 50 "D3: LOW" ∈ renderFrame c m
        ∧ DisplayCmd.drawString 128 54 "42s" ∈ renderFrame c m)
    ∧ mkRat 123 100 = 123 / 100 := by
  refine ⟨?_, ?_, ?_⟩
  · intro s1 s2 m hc h1 h2
    rw [loopStep_render s1 m h1, loopStep_render s2 m h2, hc]
  · intro c m h1 h2 h3 h4
    obtain ⟨a1, a2, a3, d1, d2⟩ := c
    dsimp only at h1 h2 h3
    subst h1
    subst h2
    subst h3
    have e1 : ("A" ++ toString kAnalogInput1Gpio ++ ": "
        ++ formatFloat2 (mkRat 123 100) ++ "V") = "A7: 1.23V" := by decide
    have e2 : ("D" ++ toString kDigitalInput1Gpio ++ ": " ++ "HIGH") = "D4: HIGH" := by decide
    have e3 : ("D" ++ toString kDigitalInput2Gpio ++ ": " ++ "LOW") = "D3: LOW" := by decide
    have e4 : toString (m / 1000) ++ "s" = "42s" := by
      rw [h4]
      decide
    refine ⟨?_, ?_, ?_, ?_⟩ <;> simp [renderFrame, e1, e2, e3, e4]
  · rw [Rat.mkRat_eq_div]
    norm_num

/-- C2 witness: on the concrete example cache and a 42000 ms uptime the
rendered frame contains the example facts. -/
theorem c2_witness :
    DisplayCmd.drawString 0 10 "A7: 1.23V" ∈ renderFrame exampleCache 42000
    ∧ DisplayCmd.drawString 128 54 "42s" ∈ renderFrame exampleCache 42000 := by
  have h := c2_render_frame_encodes_cached_values.2.1 exampleCache 42000 rfl rfl rfl (by decide)
  exact ⟨h.1, h.2.2.2⟩

/-- Helper: the scan loop's fold accumulates one `foundLine` per
acknowledging address, in bus order, and counts exactly the acknowledging
addresses. -/
theorem scanFold (ack : Nat → Bool) :
    ∀ (l : List Nat) (acc : List String × Nat),
      l.foldl (fun acc address =>
          if ack address then (acc.1 ++ [foundLine address], acc.2 + 1) else acc) acc
        = (acc.1 ++ (l.filter ack).map foundLine, acc.2 + (l.filter ack).length) := by
  intro l
  induction l with
  | nil => intro acc; simp
  | cons a l ih =>
    intro acc
    by_cases h : ack a
    · rw [List.foldl_cons]
      simp only [h, if_true]
      rw [ih, List.filter_cons_of_pos h]
      refine Prod.ext ?_ ?_
      · simp
      · simp
        omega
    · rw [List.foldl_cons, if_neg h, ih, List.filter_cons_of_neg (by simp [h])]

/-- Helper: the scan loop in closed form. -/
theorem scanI2CLines_eq (ack : Nat → Bool) :
    scanI2CLines ack
      = ((scanAddresses.filter ack).map foundLine, (scanAddresses.filter ack).length) := by
  unfold scanI2CLines
  rw [scanFold]
  simp

/-- Helper: the found-count summary line is never the no-devices line (their
first characters differ). -/
theorem foundSummary_ne_noDevices (x : String) :
    ("Found " ++ x = "No I2C devices found!") ↔ False := by
  constructor
  · intro h
    have hd : ("Found " ++ x).data.head? = some (Char.ofNat 78) := by
      rw [h]
      rfl
    rw [String.data_append] at hd
    have hf : ("Found ".data ++ x.data).head? = some (Char.ofNat 70) := rfl
    rw [hf] at hd
    exact absurd hd (by decide)
  · exact False.elim

/-- C7: `scanI2C` probes exactly the 7-bit addresses 1 through 126 in
ascending order, prints one line per acknowledging device in that order,
then prints a summary which is the no-devices message exactly when no
probed address acknowledged; it is a pure diagnostic producing only serial
lines. -/
theorem c7_scanI2C_probes_and_logs :
    ∀ ack : Nat → Bool,
      scanAddresses = List.range' 1 126
      ∧ scanAddresses.length = 126
      ∧ (∀ (i : Nat) (h : i < scanAddresses.length), scanAddresses.get ⟨i, h⟩ = 1 + i)
      ∧ scanI2C ack
          = "Scanning I2C bus..."
            :: (scanAddresses.filter ack).map foundLine
            ++ [scanSummary ((scanAddresses.filter ack).length)]
      ∧ ((scanAddresses.filter ack).length = 0 ↔ ∀ a ∈ scanAddresses, ack a = false)
      ∧ scanSummary 0 = "No I2C devices found!"
      ∧ (∀ n : Nat, scanSummary (n + 1) = "Found " ++ toString (n + 1) ++ " I2C device(s)")
      ∧ (∀ n : Nat, (scanSummary (n + 1) = "No I2C devices found!") ↔ False) := by
  intro ack
  refine ⟨rfl, by decide, ?_, ?_, ?_, rfl, ?_, ?_⟩
  · intro i h
    simp only [List.get_eq_getElem, scanAddresses]
    exact List.getElem_range'_1 i (by simpa [scanAddresses] using h)
  · unfold scanI2C
    rw [scanI2CLines_eq]
  · rw [List.length_eq_zero, List.filter_eq_nil_iff]
    simp
  · intro n
    unfold scanSummary
    simp
  · intro n
    rw [scanSummary, if_neg (by omega)]
    exact foundSummary_ne_noDevices (toString (n + 1) ++ " I2C device(s)")

/-- C7 witness: a bus on which only address 0x3C acknowledges produces the
scan banner, one found line for 0x3C, and a count of one. -/
theorem c7_witness :
    scanI2C (fun a => a == 60)
      = ["Scanning I2C bus...",
         "I2C device found at address 0x3C",
         "Found 1 I2C device(s)"] := by
  have h := (c7_scanI2C_probes_and_logs (fun a => a == 60)).2.2.2.1
  rw [h]
  decide

/-- C5: in a run of `setup()` whose `display.init()` fails, the only
display-initialization attempt is at the fixed address 0x3C — no alternate
attempt at 0x3D ever occurs (the claim and the comment on main.cpp line 76
say one should), successful runs behave identically, and the only touch of
address 0x3D is the unconditional diagnostic `scanI2C` probe. -/
theorem c5_no_alternate_init_attempt :
    initAttempts (setupDisplayTrace false) = [0x3c]
    ∧ initAttempts (setupDisplayTrace true) = [0x3c]
    ∧ SetupEvent.i2cScanProbe 0x3d ∈ setupDisplayTrace false := by
  exact ⟨by decide, by decide, by decide⟩

/-- C8 counterexample: the display test screen drawn in `setup()` contains
four `drawString` calls, not six as the claim states. -/
theorem c8_counterexample :
    drawStringCount testScreenCmds = 4
    ∧ (drawStringCount testScreenCmds = 6 ↔ False) := by
  exact ⟨by decide, by decide⟩

/-- C8 (amended): in every run of `setup()`, the display test screen —
clear, four `drawString` calls, and a buffer flush — is drawn
unconditionally after `display.init()`, including when init returned false;
only the periodic redraw in `loop()` is gated on `display_working`. -/
theorem c8_test_screen_unconditional :
    ∀ initOk : Bool,
      (setupDisplayTrace initOk).head? = some (SetupEvent.initDisplay displayAddress initOk)
      ∧ (testScreenCmds.map SetupEvent.draw).Sublist ((setupDisplayTrace initOk).tail)
      ∧ (testScreenCmds.map SetupEvent.draw).Sublist (setupDisplayTrace initOk)
      ∧ testScreenCmds.head? = some DisplayCmd.clear
      ∧ drawStringCount testScreenCmds = 4
      ∧ testScreenCmds.getLast? = some DisplayCmd.flush
      ∧ (∀ (c : CacheState) (last m : Nat),
          (loopStep { display_working := false, lastDisplayUpdate := last, cache := c } m).2
            = []) := by
  intro initOk
  refine ⟨rfl, ?_, ?_, rfl, by decide, rfl, ?_⟩
  · exact List.sublist_append_right _ _
  · exact List.Sublist.cons _ (List.sublist_append_right _ _)
  · intro c last m
    simp [loopStep]

/-- C9: during `setup()` the digital input GPIOs 4 and 3 are first
configured INPUT_PULLUP (by the sensor constructors) and then reconfigured
INPUT_PULLDOWN, so the configuration in effect when the main loop starts is
INPUT_PULLDOWN. -/
theorem c9_pulldown_overrides_pullup :
    setupPinEvents.filter (fun e => e.1 == kDigitalInput1Gpio)
        = [(kDigitalInput1Gpio, PinModeKind.input_pullup),
           (kDigitalInput1Gpio, PinModeKind.input_pulldown)]
    ∧ setupPinEvents.filter (fun e => e.1 == kDigitalInput2Gpio)
        = [(kDigitalInput2Gpio, PinModeKind.input_pullup),
           (kDigitalInput2Gpio, PinModeKind.input_pulldown)]
    ∧ finalPinMode kDigitalInput1Gpio = some PinModeKind.input_pulldown
    ∧ finalPinMode kDigitalInput2Gpio = some PinModeKind.input_pulldown := by
  exact ⟨by decide, by decide, by decide, by decide⟩

end EngineReader
